import Mathlib

/-!
Shallow embedding of the village civic-issue tracking backend
(`src/index.js`, `src/routes/problems.js`, `src/routes/wards.js`, and the
mongoose models for `Problem` and `Ward` bundled with `index.js`).

Documents are embedded as Lean structures; the mongo collections as lists;
the socket.io broker as an explicit membership table; each express handler
as a pure function from (actor, store, request) to a result plus, for the
mutating handlers, the sequence of side effects it performs in order.
Timestamps are naturals; ObjectIds are naturals.
-/

/-- An authenticated actor as exposed by the auth middleware (`req.user`):
a mongo id, a role string (`admin` or `user`), and a ward affinity. -/
structure Actor where
  id : Nat
  role : String
  wardNumber : Nat
deriving Repr, DecidableEq

/-- A `Problem` document (`models/Problem.js`).  `createdAt` is the
store-managed creation timestamp; `resolvedAt` is `null` (`none`) until set. -/
structure Problem where
  id : Nat
  title : String
  description : String
  category : String
  priority : String
  status : String
  reportedBy : Nat
  wardNumber : Nat
  location : String
  images : List String
  assignedTo : Option Nat
  adminNotes : Option String
  resolvedAt : Option Nat
  createdAt : Nat
deriving Repr, DecidableEq

/-- A `Ward` document (`models/Ward.js`). -/
structure Ward where
  wardNumber : Nat
  name : String
  description : Option String
  population : Nat
  area : Option String
  repName : Option String
  repContact : Option String
  isActive : Bool
deriving Repr, DecidableEq

/-- A `User` document as far as this subsystem consumes it: the seeded
admin account of `initializeDefaultData` and the `role` field it checks. -/
structure UserDoc where
  id : Nat
  name : String
  email : String
  wardNumber : Nat
  role : String
deriving Repr, DecidableEq

/-- The persistent store: the three document collections. -/
structure Store where
  problems : List Problem
  wards : List Ward
  users : List UserDoc
deriving Repr, DecidableEq

/-! ## Notification bus (socket.io rooms, `index.js` lines 56-75)

A session is a socket id.  `join-ward` adds the session to room
`ward-{n}` (socket.io joins are idempotent); a publish
`io.to(room).emit(...)` hands one copy of the event to every connected
session currently in the room.  Nothing is buffered: delivery is a pure
function of the membership table at publish time. -/

/-- An emitted event: its name and the payload fields the handlers send. -/
structure Event where
  name : String
  problemId : Nat
  title : String
  status : Option String
  wardNumber : Nat
deriving Repr, DecidableEq

/-- Broker state: the connected sessions and the room-membership table. -/
structure Bus where
  sessions : List Nat
  rooms : List (Nat × String)
deriving Repr, DecidableEq

/-- The topic for ward `n`: the string `ward-{n}` used both by
`join-ward` and by the emitting handlers. -/
def wardRoom (n : Nat) : String := "ward-" ++ toString n

/-- `socket.join(room)` for session `s` (idempotent, as in socket.io). -/
def Bus.join (b : Bus) (s : Nat) (room : String) : Bus :=
  if (s, room) ∈ b.rooms then b else { b with rooms := (s, room) :: b.rooms }

/-- A disconnected session is removed from the session list and from
every room it had joined. -/
def Bus.disconnect (b : Bus) (s : Nat) : Bus :=
  { sessions := b.sessions.filter (fun t => t ≠ s),
    rooms := b.rooms.filter (fun m => m.1 ≠ s) }

/-- `io.to(room).emit(ev)`: the delivery list of a publish — one copy of
`ev` to each connected session currently joined to `room`, nothing else.
No state change, no buffering. -/
def Bus.publish (b : Bus) (room : String) (ev : Event) : List (Nat × Event) :=
  (b.sessions.filter (fun s => decide ((s, room) ∈ b.rooms))).map (fun s => (s, ev))

/-- Payload of the `new-problem` emit (`routes/problems.js` lines 47-54). -/
def newProblemEvent (p : Problem) : Event :=
  { name := "new-problem", problemId := p.id, title := p.title,
    status := none, wardNumber := p.wardNumber }

/-- Payload of the `problem-updated` emit (`routes/problems.js` lines 172-179). -/
def problemUpdatedEvent (p : Problem) : Event :=
  { name := "problem-updated", problemId := p.id, title := p.title,
    status := some p.status, wardNumber := p.wardNumber }

/-! ## Problem model method (`models/Problem.js`, `updateStatus`) -/

/-- JS truthiness of an optional string argument (`if (adminNotes)`):
`null`/`undefined` and the empty string are falsy. -/
def jsTruthyStr : Option String → Bool
  | none => false
  | some s => s ≠ ""

/-- `problemSchema.methods.updateStatus(newStatus, adminNotes)`: sets
`status`; sets `adminNotes` when the argument is truthy; sets `resolvedAt`
to the current time exactly when `newStatus` is `Resolved` or `Closed`;
then saves the document (the caller records the save in its trace). -/
def Problem.updateStatus (p : Problem) (newStatus : String)
    (adminNotes : Option String) (now : Nat) : Problem :=
  let p1 := { p with status := newStatus }
  let p2 := if jsTruthyStr adminNotes then
      { p1 with adminNotes := adminNotes } else p1
  if newStatus = "Resolved" ∨ newStatus = "Closed" then
    { p2 with resolvedAt := some now } else p2

/-! ## Sorting and pagination helpers

Listings sort by `createdAt` descending (`.sort({ createdAt: -1 })`) and
paginate with `skip((page-1)*limit)` / `limit(limit)` (mongo applies the
skip before the limit regardless of chaining order). -/

/-- Stable insertion into a createdAt-descending list. -/
def insertDesc (p : Problem) : List Problem → List Problem
  | [] => [p]
  | q :: qs => if q.createdAt < p.createdAt then p :: q :: qs
               else q :: insertDesc p qs

/-- Sort by `createdAt` descending (stable). -/
def sortByCreatedAtDesc : List Problem → List Problem
  | [] => []
  | p :: ps => insertDesc p (sortByCreatedAtDesc ps)

/-- `Math.ceil(total / limit)` on naturals (for positive `limit`). -/
def ceilDiv (total limit : Nat) : Nat := (total + limit - 1) / limit

/-! ## Handler results and effect traces -/

/-- The outcome taxonomy a handler can answer with, mapped from the HTTP
statuses the routes use: 200/201 is `ok`, 403 `accessDenied`, 404
`notFound`, 400 on a duplicate ward `conflict`, 400 on validator errors
`validationFailed`. -/
inductive HandlerResult (α : Type) where
  | ok : α → HandlerResult α
  | accessDenied : HandlerResult α
  | notFound : HandlerResult α
  | conflict : HandlerResult α
  | validationFailed : List String → HandlerResult α
deriving Repr, DecidableEq

/-- One observable side effect of a mutating handler, in program order:
a save to the Problem collection or an emit on the bus. -/
inductive Effect where
  | save : Problem → Effect
  | emit : String → Event → Effect
deriving Repr, DecidableEq

/-- Whether an effect is a store save. -/
def Effect.isSave : Effect → Bool
  | .save _ => true
  | _ => false

/-- Whether an effect is a bus emit. -/
def Effect.isEmit : Effect → Bool
  | .emit _ _ => true
  | _ => false

/-- Every emit in the trace is strictly preceded by some save: no
subscriber can see an event for a state the store has not committed. -/
def saveBeforeEmit (tr : List Effect) : Prop :=
  ∀ i : Fin tr.length, (tr.get i).isEmit →
    ∃ j : Fin tr.length, j.val < i.val ∧ (tr.get j).isSave

/-! ## Problem routes (`src/routes/problems.js`) -/

/-- Drop leading whitespace characters. -/
def dropWs : List Char → List Char
  | [] => []
  | c :: cs => if c.isWhitespace then dropWs cs else c :: cs

/-- The trim sanitizer used by the validators: strip whitespace from both ends
of the string. -/
def jsTrim (s : String) : String :=
  String.mk (dropWs (dropWs s.data).reverse).reverse

/-- The fixed category enumeration (10 values). -/
def problemCategories : List String :=
  ["Water Supply", "Electricity", "Roads & Transportation", "Waste Management",
   "Healthcare", "Education", "Security", "Environment", "Infrastructure", "Other"]

/-- The priority enumeration. -/
def problemPriorities : List String := ["Low", "Medium", "High", "Critical"]

/-- The status enumeration. -/
def problemStatuses : List String := ["Open", "In Progress", "Resolved", "Closed"]

/-- Request body of `POST /problems`.  `wardNumber` may be supplied by the
client but the handler never destructures it. -/
structure CreateBody where
  title : String
  description : String
  category : String
  location : String
  priority : Option String
  images : Option (List String)
  wardNumber : Option Nat
deriving Repr, DecidableEq

/-- The trim sanitizers of the validator chain mutate the body in place
before validation and before the handler reads it. -/
def trimCreateBody (b : CreateBody) : CreateBody :=
  { b with title := jsTrim b.title, description := jsTrim b.description,
           location := jsTrim b.location }

/-- The `POST /problems` validator chain, on the already-trimmed body. -/
def createValidationErrors (b : CreateBody) : List String :=
  (if 5 ≤ b.title.length ∧ b.title.length ≤ 200 then []
   else ["Title must be between 5 and 200 characters"]) ++
  (if 10 ≤ b.description.length ∧ b.description.length ≤ 1000 then []
   else ["Description must be between 10 and 1000 characters"]) ++
  (if b.category ∈ problemCategories then [] else ["Invalid category"]) ++
  (if 5 ≤ b.location.length then []
   else ["Location must be at least 5 characters"]) ++
  (match b.priority with
   | none => []
   | some pr => if pr ∈ problemPriorities then [] else ["Invalid priority"])

/-- `POST /problems` handler: validate, construct the Problem from the
body fields plus `reportedBy := req.user._id` and
`wardNumber := req.user.wardNumber`, save it, then emit `new-problem` to
room `ward-{wardNumber}`.  `newId`/`now` stand for the store-assigned
identity and creation timestamp. -/
def postProblem (user : Actor) (body : CreateBody) (newId now : Nat) :
    HandlerResult Problem × List Effect :=
  let b := trimCreateBody body
  if createValidationErrors b ≠ [] then
    (.validationFailed (createValidationErrors b), [])
  else
    let problem : Problem :=
      { id := newId, title := b.title, description := b.description,
        category := b.category, location := b.location,
        priority := match b.priority with | some pr => pr | none => "Medium",
        status := "Open", reportedBy := user.id,
        wardNumber := user.wardNumber,
        images := match b.images with | some im => im | none => [],
        assignedTo := none, adminNotes := none, resolvedAt := none,
        createdAt := now }
    (.ok problem,
     [.save problem,
      .emit (wardRoom problem.wardNumber) (newProblemEvent problem)])

/-- The mongo query built by `GET /problems`: a non-admin is always
narrowed to their own ward; an admin may filter by the query-string ward. -/
def listQueryWard (user : Actor) (reqWard : Option Nat) : Option Nat :=
  if user.role ≠ "admin" then some user.wardNumber else reqWard

/-- Whether a problem matches the optional ward/status/category filters. -/
def matchesProblemQuery (w : Option Nat) (st cat : Option String)
    (p : Problem) : Bool :=
  (match w with | some n => decide (p.wardNumber = n) | none => true) &&
  (match st with | some s => decide (p.status = s) | none => true) &&
  (match cat with | some c => decide (p.category = c) | none => true)

/-- Response shape of the paginated listings. -/
structure ListResponse where
  problems : List Problem
  totalPages : Nat
  currentPage : Nat
  total : Nat
deriving Repr, DecidableEq

/-- Sort matching problems by creation time descending, then page them
with `skip((page-1)*limit)` / `limit(limit)`. -/
def paginate (matching : List Problem) (page limit : Nat) : ListResponse :=
  { problems := ((sortByCreatedAtDesc matching).drop ((page - 1) * limit)).take limit,
    totalPages := ceilDiv matching.length limit,
    currentPage := page,
    total := matching.length }

/-- `GET /problems` handler.  It has no access-denied branch: the ward
scope for a non-admin is forced to the own ward of the actor. -/
def getProblems (user : Actor) (store : Store) (reqWard : Option Nat)
    (st cat : Option String) (page limit : Nat) : HandlerResult ListResponse :=
  let matching := store.problems.filter
    (matchesProblemQuery (listQueryWard user reqWard) st cat)
  .ok (paginate matching page limit)

/-- `GET /problems/:id` handler: 404 when the id resolves to nothing,
403 when a non-admin asks for a problem outside their ward. -/
def getProblemById (user : Actor) (store : Store) (pid : Nat) :
    HandlerResult Problem :=
  match store.problems.find? (fun p => decide (p.id = pid)) with
  | none => .notFound
  | some p =>
      if user.role ≠ "admin" ∧ p.wardNumber ≠ user.wardNumber then
        .accessDenied
      else .ok p

/-- Modelled from the spec: the `adminAuth` middleware
(`src/middleware/auth.js` is not part of this snapshot).  Per the HTTP table of the spec the admin-only endpoints deny any actor whose role is not
`admin` before the handler body runs. -/
def adminAuthOk (user : Actor) : Bool := user.role = "admin"

/-- Request body of `PUT /problems/:id/status`. -/
structure StatusBody where
  status : String
  adminNotes : Option String
  assignedTo : Option Nat
deriving Repr, DecidableEq

/-- The `PUT /problems/:id/status` validator chain. -/
def statusValidationErrors (b : StatusBody) : List String :=
  (if b.status ∈ problemStatuses then [] else ["Invalid status"]) ++
  (match b.adminNotes with
   | none => []
   | some n => if n.length ≤ 500 then []
               else ["Admin notes must be less than 500 characters"])

/-- `PUT /problems/:id/status` handler: admin gate, validate, look the
problem up, `updateStatus` (which saves), optionally set `assignedTo` and
save again, then emit `problem-updated` to the room of the ward. -/
def putProblemStatus (user : Actor) (store : Store) (pid : Nat)
    (body : StatusBody) (now : Nat) : HandlerResult Problem × List Effect :=
  if ¬ adminAuthOk user then (.accessDenied, [])
  else if statusValidationErrors body ≠ [] then
    (.validationFailed (statusValidationErrors body), [])
  else
    match store.problems.find? (fun p => decide (p.id = pid)) with
    | none => (.notFound, [])
    | some p =>
        let p1 := p.updateStatus body.status body.adminNotes now
        match body.assignedTo with
        | some a =>
            let p2 := { p1 with assignedTo := some a }
            (.ok p2, [.save p1, .save p2,
                      .emit (wardRoom p2.wardNumber) (problemUpdatedEvent p2)])
        | none =>
            (.ok p1, [.save p1,
                      .emit (wardRoom p1.wardNumber) (problemUpdatedEvent p1)])

/-! ## Ward routes (`src/routes/wards.js`) -/

/-- Per-status aggregate (`$group` by `$status`): one `(status, count)`
entry per status that occurs among the given problems. -/
def groupByStatus (ps : List Problem) : List (String × Nat) :=
  (problemStatuses.map
    (fun s => (s, (ps.filter (fun p => decide (p.status = s))).length))).filter
    (fun e => decide (e.2 ≠ 0))

/-- Response shape of `GET /wards/:wardNumber`. -/
structure WardDetail where
  ward : Ward
  recentProblems : List Problem
  stats : List (String × Nat)
deriving Repr, DecidableEq

/-- `GET /wards/:wardNumber` handler: look up the active ward (404 if
none), then return it with the 5 most recent problems of the ward and its
per-status aggregate.  The handler receives the authenticated `req.user`
but never reads it: no ward-affinity check is made. -/
def getWardDetail (user : Actor) (store : Store) (wardNumber : Nat) :
    HandlerResult WardDetail :=
  match store.wards.find?
      (fun w => decide (w.wardNumber = wardNumber) && w.isActive) with
  | none => .notFound
  | some w =>
      let wardProblems := store.problems.filter
        (fun p => decide (p.wardNumber = wardNumber))
      .ok { ward := w,
            recentProblems := (sortByCreatedAtDesc wardProblems).take 5,
            stats := groupByStatus wardProblems }

/-- `GET /wards/:wardNumber/problems` handler: a non-admin asking for a
ward other than their own is denied (403) before any query runs;
otherwise the problems of the ward are filtered, sorted and paged exactly like
`GET /problems`. -/
def getWardProblems (user : Actor) (store : Store) (wardNumber : Nat)
    (st cat : Option String) (page limit : Nat) : HandlerResult ListResponse :=
  if user.role ≠ "admin" ∧ wardNumber ≠ user.wardNumber then .accessDenied
  else
    let matching := store.problems.filter
      (matchesProblemQuery (some wardNumber) st cat)
    .ok (paginate matching page limit)

/-- Request body of `POST /wards` (after the `isInt`
conversions of the validator; the representative object is flattened). -/
structure WardBody where
  wardNumber : Nat
  name : String
  description : Option String
  population : Option Nat
  area : Option String
  repName : Option String
  repContact : Option String
deriving Repr, DecidableEq

/-- The `POST /wards` validator chain (`population` is a `Nat` here, so
its `isInt({ min: 0 })` check cannot fail). -/
def wardCreateErrors (b : WardBody) : List String :=
  (if 1 ≤ b.wardNumber ∧ b.wardNumber ≤ 50 then []
   else ["Ward number must be between 1 and 50"]) ++
  (if 2 ≤ (jsTrim b.name).length then []
   else ["Ward name must be at least 2 characters"]) ++
  (match b.description with
   | none => []
   | some d => if (jsTrim d).length ≤ 500 then []
               else ["Description must be less than 500 characters"])

/-- `POST /wards` handler: admin gate, validate, reject a duplicate
`wardNumber` (any existing ward, active or not) with 400 before touching
the store, otherwise insert the new ward (schema defaults: `population`
0, `isActive` true). -/
def postWard (user : Actor) (store : Store) (b : WardBody) :
    HandlerResult Ward × Store :=
  if ¬ adminAuthOk user then (.accessDenied, store)
  else if wardCreateErrors b ≠ [] then
    (.validationFailed (wardCreateErrors b), store)
  else
    match store.wards.find? (fun w => decide (w.wardNumber = b.wardNumber)) with
    | some _ => (.conflict, store)
    | none =>
        let w : Ward :=
          { wardNumber := b.wardNumber, name := jsTrim b.name,
            description := b.description.map jsTrim,
            population := match b.population with | some n => n | none => 0,
            area := b.area.map jsTrim,
            repName := b.repName.map jsTrim,
            repContact := b.repContact.map jsTrim,
            isActive := true }
        (.ok w, { store with wards := store.wards ++ [w] })

/-- Request body of `PUT /wards/:wardNumber`: a partial patch. -/
structure WardPatch where
  name : Option String
  description : Option String
  population : Option Nat
  area : Option String
  repName : Option String
  repContact : Option String
deriving Repr, DecidableEq

/-- The `PUT /wards/:wardNumber` validator chain. -/
def wardPatchErrors (b : WardPatch) : List String :=
  (match b.name with
   | none => []
   | some n => if 2 ≤ (jsTrim n).length then []
               else ["Ward name must be at least 2 characters"]) ++
  (match b.description with
   | none => []
   | some d => if (jsTrim d).length ≤ 500 then []
               else ["Description must be less than 500 characters"])

/-- `$set` of the supplied fields onto a ward document. -/
def applyWardPatch (w : Ward) (b : WardPatch) : Ward :=
  { w with
    name := match b.name with | some n => jsTrim n | none => w.name,
    description := match b.description with
                   | some d => some (jsTrim d) | none => w.description,
    population := match b.population with | some n => n | none => w.population,
    area := match b.area with | some a => some (jsTrim a) | none => w.area,
    repName := match b.repName with
               | some r => some (jsTrim r) | none => w.repName,
    repContact := match b.repContact with
                  | some r => some (jsTrim r) | none => w.repContact }

/-- `findOneAndUpdate` rewrites the first matching document only. -/
def updateFirstWard (f : Ward → Bool) (g : Ward → Ward) :
    List Ward → List Ward
  | [] => []
  | w :: ws => if f w then g w :: ws else w :: updateFirstWard f g ws

/-- `PUT /wards/:wardNumber` handler: admin gate, validate, then
`findOneAndUpdate({ wardNumber }, { $set: updates }, { new: true })` —
the lookup filters on `wardNumber` alone, with no `isActive` condition;
404 only when no ward (active or not) carries that number. -/
def putWard (user : Actor) (store : Store) (wardNumber : Nat)
    (b : WardPatch) : HandlerResult Ward × Store :=
  if ¬ adminAuthOk user then (.accessDenied, store)
  else if wardPatchErrors b ≠ [] then
    (.validationFailed (wardPatchErrors b), store)
  else
    match store.wards.find? (fun w => decide (w.wardNumber = wardNumber)) with
    | none => (.notFound, store)
    | some w =>
        (.ok (applyWardPatch w b),
         { store with
           wards := updateFirstWard
             (fun x => decide (x.wardNumber = wardNumber))
             (fun x => applyWardPatch x b) store.wards })

/-! ## Startup initialization (`index.js`, `initializeDefaultData`) -/

/-- One of the ten seeded wards.  The randomized placeholder data
(`population`, `area`, representative contact) is abstracted as the
functions `pop`, `areaF`, `contactF` of the ward number. -/
def defaultWard (pop : Nat → Nat) (areaF contactF : Nat → String)
    (i : Nat) : Ward :=
  { wardNumber := i, name := "Ward " ++ toString i,
    description := some ("Area " ++ toString i ++ " of Swatch Village"),
    population := pop i, area := some (areaF i),
    repName := some ("Representative " ++ toString i),
    repContact := some (contactF i), isActive := true }

/-- The ten default wards, numbered 1 through 10. -/
def defaultWards (pop : Nat → Nat) (areaF contactF : Nat → String) :
    List Ward :=
  (List.range 10).map (fun k => defaultWard pop areaF contactF (k + 1))

/-- The seeded administrator account. -/
def seededAdmin (newId : Nat) : UserDoc :=
  { id := newId, name := "Admin User", email := "admin@swatchvillage.com",
    wardNumber := 1, role := "admin" }

/-- `initializeDefaultData`: if the Ward collection is empty, insert the
ten default wards; then, if no user with role `admin` exists, insert the
seeded admin.  Both steps are guarded by existence checks only. -/
def initializeDefaultData (pop : Nat → Nat) (areaF contactF : Nat → String)
    (newAdminId : Nat) (store : Store) : Store :=
  let s1 := if store.wards.length = 0 then
      { store with wards := defaultWards pop areaF contactF } else store
  match s1.users.find? (fun u => decide (u.role = "admin")) with
  | some _ => s1
  | none => { s1 with users := s1.users ++ [seededAdmin newAdminId] }

/-! ## Concrete fixtures used by witnesses and counterexamples -/

/-- The empty store, as on first startup. -/
def emptyStore : Store := { problems := [], wards := [], users := [] }

/-- A concrete reported problem in ward 3. -/
def exampleProblem : Problem :=
  { id := 1, title := "Streetlight broken",
    description := "The corner light is out at night.",
    category := "Electricity", priority := "Medium", status := "Open",
    reportedBy := 2, wardNumber := 3, location := "Corner of Main Street",
    images := [], assignedTo := none, adminNotes := none, resolvedAt := none,
    createdAt := 4 }

/-- A problem in ward 2 (the own ward of the sample resident). -/
def ownWardProblem : Problem :=
  { exampleProblem with id := 8, wardNumber := 2, createdAt := 6 }

/-- A problem in ward 3 (not the ward of the sample resident). -/
def otherWardProblem : Problem :=
  { exampleProblem with id := 9, wardNumber := 3, createdAt := 7 }

/-- A resident (non-admin) actor affiliated with ward 2. -/
def residentTwo : Actor := { id := 5, role := "user", wardNumber := 2 }

/-- An admin actor. -/
def adminActor : Actor := { id := 0, role := "admin", wardNumber := 1 }

/-- An active ward numbered 1. -/
def activeWardOne : Ward :=
  { wardNumber := 1, name := "Ward One", description := none,
    population := 100, area := none, repName := none, repContact := none,
    isActive := true }

/-- A stored admin account. -/
def adminDoc : UserDoc :=
  { id := 3, name := "Admin User", email := "admin@swatchvillage.com",
    wardNumber := 1, role := "admin" }

/-- A small populated store. -/
def sampleStore : Store :=
  { problems := [ownWardProblem, otherWardProblem],
    wards := [activeWardOne], users := [adminDoc] }

/-- A valid `POST /problems` body. -/
def validCreateBody : CreateBody :=
  { title := "Streetlight broken",
    description := "The corner light is out at night.",
    category := "Electricity", location := "Corner of Main Street",
    priority := none, images := none, wardNumber := none }

/-- A valid `PUT /problems/:id/status` body. -/
def exampleStatusBody : StatusBody :=
  { status := "Resolved", adminNotes := some "Fixed", assignedTo := none }

/-- The C8 counterexample store: a single ward, number 1, inactive. -/
def inactiveWardStore : Store :=
  { problems := [], users := [],
    wards := [{ wardNumber := 1, name := "Old Name", description := none,
                population := 0, area := none, repName := none,
                repContact := none, isActive := false }] }

/-- The C8 counterexample patch: rename the ward. -/
def renamePatch : WardPatch :=
  { name := some "New Name", description := none, population := none,
    area := none, repName := none, repContact := none }

/-- A valid `POST /wards` body reusing ward number 1. -/
def duplicateWardBody : WardBody :=
  { wardNumber := 1, name := "Ward One Again", description := none,
    population := none, area := none, repName := none, repContact := none }

/-! ## Helper lemmas -/

/-- Membership is preserved by descending insertion. -/
theorem mem_insertDesc {a p : Problem} {l : List Problem} :
    a ∈ insertDesc p l ↔ a = p ∨ a ∈ l := by
  induction l with
  | nil => simp [insertDesc]
  | cons q qs ih =>
      by_cases h : q.createdAt < p.createdAt
      · simp [insertDesc, h]
      · simp [insertDesc, h, ih]
        tauto

/-- Membership is preserved by the createdAt-descending sort. -/
theorem mem_sortByCreatedAtDesc {a : Problem} {l : List Problem} :
    a ∈ sortByCreatedAtDesc l ↔ a ∈ l := by
  induction l with
  | nil => simp [sortByCreatedAtDesc]
  | cons p ps ih => simp [sortByCreatedAtDesc, mem_insertDesc, ih]

/-- Every problem on a page of `paginate` comes from the matching list. -/
theorem mem_of_mem_paginate {a : Problem} {l : List Problem}
    {page limit : Nat} (h : a ∈ (paginate l page limit).problems) : a ∈ l := by
  have h1 : a ∈ sortByCreatedAtDesc l :=
    List.mem_of_mem_drop (List.mem_of_mem_take h)
  exact mem_sortByCreatedAtDesc.mp h1

/-- A two-effect trace `save; emit` has each emit after a save. -/
theorem saveBeforeEmit_save_emit (p : Problem) (r : String) (e : Event) :
    saveBeforeEmit [.save p, .emit r e] := by
  intro i hi
  fin_cases i
  · simp [Effect.isEmit] at hi
  · exact ⟨⟨0, by norm_num⟩, by norm_num, rfl⟩

/-- A three-effect trace `save; save; emit` has each emit after a save. -/
theorem saveBeforeEmit_save_save_emit (p q : Problem) (r : String) (e : Event) :
    saveBeforeEmit [.save p, .save q, .emit r e] := by
  intro i hi
  fin_cases i
  · simp [Effect.isEmit] at hi
  · simp [Effect.isEmit] at hi
  · exact ⟨⟨0, by norm_num⟩, by norm_num, rfl⟩

/-- The empty trace vacuously has each emit after a save. -/
theorem saveBeforeEmit_nil : saveBeforeEmit [] := by
  intro i
  exact absurd i.isLt (by simp)

/-! ## Claims -/

/-- Delivery count of a publish: one copy to a connected session joined
to the room, zero otherwise. -/
theorem count_publish_aux (l : List Nat) (rooms : List (Nat × String))
    (room : String) (ev : Event) (s : Nat) (hnd : l.Nodup) :
    ((l.filter (fun t => decide ((t, room) ∈ rooms))).map
      (fun t => (t, ev))).count (s, ev)
      = if s ∈ l ∧ (s, room) ∈ rooms then 1 else 0 := by
  induction l with
  | nil => simp
  | cons a as ih =>
      obtain ⟨hna, hnd'⟩ := List.nodup_cons.mp hnd
      by_cases ha : (a, room) ∈ rooms
      · by_cases hsa : s = a
        · subst hsa
          have h0 : ((as.filter (fun t => decide ((t, room) ∈ rooms))).map
              (fun t => (t, ev))).count (s, ev) = 0 := by
            rw [ih hnd']
            simp [hna]
          simp [List.filter_cons, ha, List.count_cons, h0]
        · have has : ¬a = s := fun h => hsa h.symm
          have := ih hnd'
          simp only [List.filter_cons, decide_eq_true_eq, ha, if_true,
            List.map_cons, List.count_cons, this]
          by_cases hs : s ∈ as <;>
            simp [hs, ha, hsa, has, Prod.ext_iff]
      · by_cases hsa : s = a
        · subst hsa
          rw [List.filter_cons_of_neg (by simpa using ha), ih hnd']
          simp [hna, ha]
        · rw [List.filter_cons_of_neg (by simpa using ha), ih hnd']
          simp [hsa, ha]

/-- C1: publishing a `new-problem` event on the topic of ward `n` delivers
exactly one copy to every connected session currently joined to
`ward-n`, and zero copies to any session not joined to `ward-n` at
publish time (in particular to sessions joined only to other topics);
delivery is a pure function of the membership table at publish time, so
nothing is buffered or replayed. -/
theorem publish_newProblem_delivers_exactly_to_joined
    (b : Bus) (p : Problem) (s : Nat) (hnd : b.sessions.Nodup) :
    (s ∈ b.sessions → (s, wardRoom p.wardNumber) ∈ b.rooms →
      (b.publish (wardRoom p.wardNumber) (newProblemEvent p)).count
        (s, newProblemEvent p) = 1) ∧
    ((s, wardRoom p.wardNumber) ∉ b.rooms →
      (b.publish (wardRoom p.wardNumber) (newProblemEvent p)).count
        (s, newProblemEvent p) = 0) := by
  have h := count_publish_aux b.sessions b.rooms (wardRoom p.wardNumber)
    (newProblemEvent p) s hnd
  constructor
  · intro hs hr
    rw [Bus.publish, h]
    simp [hs, hr]
  · intro hr
    rw [Bus.publish, h]
    simp [hr]

/-- Any trace beginning with a save has every emit preceded by a save. -/
theorem saveBeforeEmit_cons_save (p : Problem) (tr : List Effect) :
    saveBeforeEmit (Effect.save p :: tr) := by
  rintro ⟨iv, hlt⟩ hi
  cases iv with
  | zero => simp [Effect.isEmit, List.get] at hi
  | succ n => exact ⟨⟨0, Nat.succ_pos _⟩, Nat.succ_pos _, rfl⟩

/-- C2: a non-admin `GET /problems` never yields access-denied — the
query is silently narrowed to the own ward of the actor, so every returned
record carries the ward number of the actor regardless of any requested ward
filter; whereas `GET /problems/:id` on an existing problem of another
ward fails closed with access-denied and returns no record. -/
theorem listing_narrows_fetch_fails_closed
    (user : Actor) (store : Store) (reqWard : Option Nat)
    (st cat : Option String) (page limit pid : Nat) (p : Problem)
    (hrole : user.role ≠ "admin") :
    (∃ resp, getProblems user store reqWard st cat page limit = .ok resp ∧
      ∀ q ∈ resp.problems, q.wardNumber = user.wardNumber) ∧
    (store.problems.find? (fun x => decide (x.id = pid)) = some p →
      p.wardNumber ≠ user.wardNumber →
      getProblemById user store pid = .accessDenied) := by
  constructor
  · refine ⟨_, rfl, ?_⟩
    intro q hq
    have hmem := mem_of_mem_paginate hq
    have hmatch := List.of_mem_filter hmem
    have hw : listQueryWard user reqWard = some user.wardNumber := by
      simp [listQueryWard, hrole]
    rw [hw] at hmatch
    simp only [matchesProblemQuery, Bool.and_eq_true, decide_eq_true_eq]
      at hmatch
    exact hmatch.1.1
  · intro hfind hward
    simp [getProblemById, hfind, hrole, hward]

/-- C3: in the effect sequence of each mutating handler, every bus emit is
strictly preceded by a save to the Problem collection — the store
mutation happens before the `new-problem` / `problem-updated` publish. -/
theorem save_precedes_emit_in_handlers
    (user : Actor) (body : CreateBody) (newId now : Nat)
    (store : Store) (pid : Nat) (sbody : StatusBody) :
    saveBeforeEmit (postProblem user body newId now).2 ∧
    saveBeforeEmit (putProblemStatus user store pid sbody now).2 := by
  constructor
  · by_cases h : createValidationErrors (trimCreateBody body) = []
    · simp only [postProblem]
      rw [if_neg (by simp [h])]
      exact saveBeforeEmit_cons_save _ _
    · simp only [postProblem]
      rw [if_pos (by simp [h])]
      exact saveBeforeEmit_nil
  · by_cases hadmin : adminAuthOk user
    · by_cases hval : statusValidationErrors sbody = []
      · cases hfind : store.problems.find? (fun x => decide (x.id = pid)) with
        | none =>
            simp [putProblemStatus, hadmin, hval, hfind]
            exact saveBeforeEmit_nil
        | some p =>
            cases hassign : sbody.assignedTo with
            | none =>
                simp [putProblemStatus, hadmin, hval, hfind, hassign]
                exact saveBeforeEmit_cons_save _ _
            | some a =>
                simp [putProblemStatus, hadmin, hval, hfind, hassign]
                exact saveBeforeEmit_cons_save _ _
      · simp [putProblemStatus, hadmin, hval]
        exact saveBeforeEmit_nil
    · simp [putProblemStatus, hadmin]
      exact saveBeforeEmit_nil

/-- C4: a successfully created problem carries the ward affinity and
identity of the reporting actor and identity; the handler is insensitive to any
`wardNumber` the request body supplies. -/
theorem created_problem_ward_and_reporter
    (user : Actor) (body : CreateBody) (newId now : Nat) (w : Option Nat)
    (hvalid : createValidationErrors (trimCreateBody body) = []) :
    (∃ p, (postProblem user body newId now).1 = .ok p ∧
      p.wardNumber = user.wardNumber ∧ p.reportedBy = user.id) ∧
    postProblem user { body with wardNumber := w } newId now
      = postProblem user body newId now := by
  constructor
  · simp only [postProblem]
    rw [if_neg (by simp [hvalid])]
    exact ⟨_, rfl, rfl, rfl⟩
  · cases body
    rfl

/-- C5: `updateStatus` to Resolved or Closed sets `resolvedAt` to a
non-null timestamp (the current time, hence ≥ the creation time when the
clock has not gone backwards); to Open or In Progress it leaves
`resolvedAt` exactly as it was; and no field other than `status`,
`adminNotes` and `resolvedAt` is changed. -/
theorem updateStatus_resolvedAt_and_frame
    (p : Problem) (s : String) (notes : Option String) (now : Nat) :
    ((s = "Resolved" ∨ s = "Closed") → p.createdAt ≤ now →
      ∃ t, (p.updateStatus s notes now).resolvedAt = some t ∧
        p.createdAt ≤ t) ∧
    ((s = "Open" ∨ s = "In Progress") →
      (p.updateStatus s notes now).resolvedAt = p.resolvedAt) ∧
    ((p.updateStatus s notes now).id = p.id ∧
     (p.updateStatus s notes now).title = p.title ∧
     (p.updateStatus s notes now).description = p.description ∧
     (p.updateStatus s notes now).category = p.category ∧
     (p.updateStatus s notes now).priority = p.priority ∧
     (p.updateStatus s notes now).reportedBy = p.reportedBy ∧
     (p.updateStatus s notes now).wardNumber = p.wardNumber ∧
     (p.updateStatus s notes now).location = p.location ∧
     (p.updateStatus s notes now).images = p.images ∧
     (p.updateStatus s notes now).assignedTo = p.assignedTo ∧
     (p.updateStatus s notes now).createdAt = p.createdAt) := by
  refine ⟨?_, ?_, ?_⟩
  · intro h hle
    refine ⟨now, ?_, hle⟩
    by_cases h1 : jsTruthyStr notes <;>
      simp [Problem.updateStatus, h1, if_pos h]
  · rintro (rfl | rfl) <;>
      by_cases h1 : jsTruthyStr notes <;>
        simp [Problem.updateStatus, h1]
  · by_cases h1 : jsTruthyStr notes <;>
      by_cases h2 : s = "Resolved" ∨ s = "Closed" <;>
        simp [Problem.updateStatus, h1, h2]

/-- C6: a non-admin requesting the problem list of another ward is denied
with no data; requesting the list of their own ward succeeds and returns
problems of that ward. -/
theorem wardProblems_denied_or_own_ward
    (user : Actor) (store : Store) (n : Nat)
    (st cat : Option String) (page limit : Nat)
    (hrole : user.role ≠ "admin") :
    (n ≠ user.wardNumber →
      getWardProblems user store n st cat page limit = .accessDenied) ∧
    (∃ resp, getWardProblems user store user.wardNumber st cat page limit
        = .ok resp ∧ ∀ q ∈ resp.problems, q.wardNumber = user.wardNumber) := by
  constructor
  · intro hne
    simp [getWardProblems, hrole, hne]
  · have hcond : ¬ (user.role ≠ "admin" ∧
        user.wardNumber ≠ user.wardNumber) := by simp
    refine ⟨paginate (store.problems.filter
        (matchesProblemQuery (some user.wardNumber) st cat)) page limit,
      ?_, ?_⟩
    · unfold getWardProblems
      rw [if_neg hcond]
    · intro q hq
      have hmatch := List.of_mem_filter (mem_of_mem_paginate hq)
      simp only [matchesProblemQuery, Bool.and_eq_true, decide_eq_true_eq]
        at hmatch
      exact hmatch.1.1

/-- C7: creating a ward whose `wardNumber` some stored ward already
carries yields the Conflict outcome and leaves the Ward collection (and
the rest of the store) exactly as it was. -/
theorem createWard_duplicate_conflict (user : Actor) (store : Store)
    (b : WardBody) (hadmin : adminAuthOk user)
    (hvalid : wardCreateErrors b = [])
    (hdup : ∃ w ∈ store.wards, w.wardNumber = b.wardNumber) :
    postWard user store b = (.conflict, store) := by
  have hsome : (store.wards.find?
      (fun w => decide (w.wardNumber = b.wardNumber))).isSome := by
    rw [List.find?_isSome]
    obtain ⟨w, hw, he⟩ := hdup
    exact ⟨w, hw, by simpa using he⟩
  obtain ⟨w, hw⟩ := Option.isSome_iff_exists.mp hsome
  simp [postWard, hadmin, hvalid, hw]

/-- C8 counterexample: `PUT /wards/1` against a store whose only ward
number 1 is inactive does not answer NotFound — it finds the inactive
ward, applies the patch, and mutates the stored record. -/
theorem updateWard_inactive_updates :
    (putWard ⟨0, "admin", 1⟩ inactiveWardStore 1 renamePatch).1
        = .ok { wardNumber := 1, name := "New Name", description := none,
                population := 0, area := none, repName := none,
                repContact := none, isActive := false } ∧
    (putWard ⟨0, "admin", 1⟩ inactiveWardStore 1 renamePatch).1
        ≠ .notFound ∧
    (putWard ⟨0, "admin", 1⟩ inactiveWardStore 1 renamePatch).2
        ≠ inactiveWardStore := by
  refine ⟨?_, ?_, ?_⟩ <;> decide

/-- C8 amended: `GET /wards/:n` resolves only active wards and yields
NotFound otherwise; `PUT /wards/:n` yields NotFound exactly when no ward
record at all (active or inactive) carries that number, in which case
the store is unchanged; when any ward carries the number — inactive
included — the patch is applied to it. -/
theorem ward_notFound_behaviour (user : Actor) (store : Store)
    (n : Nat) (b : WardPatch) (u : Actor)
    (hadmin : adminAuthOk user)
    (hvalid : wardPatchErrors b = []) :
    (store.wards.find? (fun w => decide (w.wardNumber = n)) = none →
      putWard user store n b = (.notFound, store)) ∧
    (∀ w, store.wards.find? (fun w => decide (w.wardNumber = n)) = some w →
      (putWard user store n b).1 = .ok (applyWardPatch w b)) ∧
    (store.wards.find? (fun w => decide (w.wardNumber = n) && w.isActive)
        = none → getWardDetail u store n = .notFound) := by
  refine ⟨?_, ?_, ?_⟩
  · intro hnone
    simp [putWard, hadmin, hvalid, hnone]
  · intro w hw
    simp [putWard, hadmin, hvalid, hw]
  · intro hnone
    simp [getWardDetail, hnone]

/-- C9: against a store with at least one ward and at least one admin the
startup routine creates nothing (the store is returned untouched); against
the empty store it creates exactly the ten wards numbered 1..10 and
exactly one admin user. -/
theorem initializeDefaultData_idempotent_seed
    (pop : Nat → Nat) (areaF contactF : Nat → String) (newAdminId : Nat)
    (store : Store) (hw : store.wards ≠ [])
    (ha : ∃ u ∈ store.users, u.role = "admin") :
    initializeDefaultData pop areaF contactF newAdminId store = store ∧
    (initializeDefaultData pop areaF contactF newAdminId emptyStore).wards.map
        Ward.wardNumber = [1, 2, 3, 4, 5, 6, 7, 8, 9, 10] ∧
    (initializeDefaultData pop areaF contactF newAdminId
        emptyStore).wards.length = 10 ∧
    (initializeDefaultData pop areaF contactF newAdminId
        emptyStore).users.length = 1 ∧
    ((initializeDefaultData pop areaF contactF newAdminId
        emptyStore).users.filter (fun u => decide (u.role = "admin"))).length
      = 1 := by
  refine ⟨?_, rfl, rfl, rfl, rfl⟩
  have hlen : ¬ store.wards.length = 0 := by simpa using hw
  have hsome : (store.users.find? (fun u => decide (u.role = "admin"))).isSome := by
    rw [List.find?_isSome]
    obtain ⟨u, hu, he⟩ := ha
    exact ⟨u, hu, by simpa using he⟩
  obtain ⟨u, hu⟩ := Option.isSome_iff_exists.mp hsome
  simp [initializeDefaultData, hlen, hu]

/-- C10: `GET /wards/:n` never consults the requesting actor — any two
authenticated actors get the identical response — and for an active ward
it hands any actor (a resident of a different ward included) the ward
detail, its 5 most recent problems and its per-status aggregate. -/
theorem wardDetail_ignores_actor (store : Store) (n : Nat) :
    (∀ u1 u2 : Actor, getWardDetail u1 store n = getWardDetail u2 store n) ∧
    (∀ w, store.wards.find?
        (fun x => decide (x.wardNumber = n) && x.isActive) = some w →
      ∀ u : Actor, getWardDetail u store n
        = .ok { ward := w,
                recentProblems := (sortByCreatedAtDesc (store.problems.filter
                  (fun p => decide (p.wardNumber = n)))).take 5,
                stats := groupByStatus (store.problems.filter
                  (fun p => decide (p.wardNumber = n))) }) := by
  constructor
  · intro u1 u2
    rfl
  · intro w hw u
    simp [getWardDetail, hw]

/-- A concrete bus with session 10 joined to `ward-3` and session 11
joined only to `ward-2`. -/
def witnessBus : Bus :=
  { sessions := [10, 11], rooms := [(10, wardRoom 3), (11, wardRoom 2)] }

/-- Witness for C1: at the concrete bus, the joined session receives
exactly one copy and the session joined only to another ward receives
none. -/
theorem publish_newProblem_witness :
    (witnessBus.publish (wardRoom exampleProblem.wardNumber)
        (newProblemEvent exampleProblem)).count
      (10, newProblemEvent exampleProblem) = 1 ∧
    (witnessBus.publish (wardRoom exampleProblem.wardNumber)
        (newProblemEvent exampleProblem)).count
      (11, newProblemEvent exampleProblem) = 0 :=
  ⟨(publish_newProblem_delivers_exactly_to_joined witnessBus exampleProblem 10
      (by decide)).1 (by decide) (by decide),
   (publish_newProblem_delivers_exactly_to_joined witnessBus exampleProblem 11
      (by decide)).2 (by decide)⟩

/-- Witness for C2: the ward-2 resident listing with a ward-3 filter
still gets only ward-2 records, and fetching the ward-3 problem by id is
denied. -/
theorem listing_narrows_witness :
    (∃ resp, getProblems residentTwo sampleStore (some 3) none none 1 10
        = .ok resp ∧
      ∀ q ∈ resp.problems, q.wardNumber = residentTwo.wardNumber) ∧
    getProblemById residentTwo sampleStore 9 = .accessDenied :=
  ⟨(listing_narrows_fetch_fails_closed residentTwo sampleStore (some 3)
      none none 1 10 9 otherWardProblem (by decide)).1,
   (listing_narrows_fetch_fails_closed residentTwo sampleStore (some 3)
      none none 1 10 9 otherWardProblem (by decide)).2 (by decide) (by decide)⟩

/-- Witness for C3 at concrete handler invocations. -/
theorem save_precedes_emit_witness :
    saveBeforeEmit (postProblem residentTwo validCreateBody 20 21).2 ∧
    saveBeforeEmit (putProblemStatus residentTwo sampleStore 8
      exampleStatusBody 21).2 :=
  save_precedes_emit_in_handlers residentTwo validCreateBody 20 21
    sampleStore 8 exampleStatusBody

/-- Witness for C4 at a concrete valid body. -/
theorem created_problem_witness :
    (∃ p, (postProblem residentTwo validCreateBody 20 21).1 = .ok p ∧
      p.wardNumber = residentTwo.wardNumber ∧
      p.reportedBy = residentTwo.id) ∧
    postProblem residentTwo { validCreateBody with wardNumber := some 9 }
        20 21
      = postProblem residentTwo validCreateBody 20 21 :=
  created_problem_ward_and_reporter residentTwo validCreateBody 20 21
    (some 9) (by decide)

/-- Witness for C5 at a concrete problem. -/
theorem updateStatus_witness :
    (∃ t, (exampleProblem.updateStatus "Resolved" none 9).resolvedAt
        = some t ∧ exampleProblem.createdAt ≤ t) ∧
    (exampleProblem.updateStatus "Open" none 9).resolvedAt
      = exampleProblem.resolvedAt :=
  ⟨(updateStatus_resolvedAt_and_frame exampleProblem "Resolved" none 9).1
      (Or.inl rfl) (by decide),
   (updateStatus_resolvedAt_and_frame exampleProblem "Open" none 9).2.1
      (Or.inl rfl)⟩

/-- Witness for C6: the ward-2 resident is denied ward 3 and served
ward 2. -/
theorem wardProblems_witness :
    getWardProblems residentTwo sampleStore 3 none none 1 10
      = .accessDenied ∧
    (∃ resp, getWardProblems residentTwo sampleStore residentTwo.wardNumber
        none none 1 10 = .ok resp ∧
      ∀ q ∈ resp.problems, q.wardNumber = residentTwo.wardNumber) :=
  ⟨(wardProblems_denied_or_own_ward residentTwo sampleStore 3 none none 1 10
      (by decide)).1 (by decide),
   (wardProblems_denied_or_own_ward residentTwo sampleStore 3 none none 1 10
      (by decide)).2⟩

/-- Witness for C7: re-creating ward 1 conflicts and leaves the store
unchanged. -/
theorem createWard_conflict_witness :
    postWard adminActor sampleStore duplicateWardBody
      = (.conflict, sampleStore) :=
  createWard_duplicate_conflict adminActor sampleStore duplicateWardBody
    (by decide) (by decide) (by decide)

/-- Witness for the amended C8 at concrete stores. -/
theorem ward_notFound_witness :
    putWard adminActor sampleStore 7 renamePatch = (.notFound, sampleStore) ∧
    (putWard adminActor sampleStore 1 renamePatch).1
      = .ok (applyWardPatch activeWardOne renamePatch) ∧
    getWardDetail residentTwo sampleStore 7 = .notFound :=
  ⟨(ward_notFound_behaviour adminActor sampleStore 7 renamePatch residentTwo
      (by decide) (by decide)).1 (by decide),
   (ward_notFound_behaviour adminActor sampleStore 1 renamePatch residentTwo
      (by decide) (by decide)).2.1 activeWardOne (by decide),
   (ward_notFound_behaviour adminActor sampleStore 7 renamePatch residentTwo
      (by decide) (by decide)).2.2 (by decide)⟩

/-- Witness for C9: a populated store is untouched; the empty store
seeding yields wards numbered 1..10. -/
theorem initialize_witness :
    initializeDefaultData (fun _ => 500) (fun _ => "2 sq km")
        (fun _ => "+911000000000") 42 sampleStore = sampleStore ∧
    (initializeDefaultData (fun _ => 500) (fun _ => "2 sq km")
        (fun _ => "+911000000000") 42 emptyStore).wards.map Ward.wardNumber
      = [1, 2, 3, 4, 5, 6, 7, 8, 9, 10] :=
  ⟨(initializeDefaultData_idempotent_seed (fun _ => 500) (fun _ => "2 sq km")
      (fun _ => "+911000000000") 42 sampleStore (by decide) (by decide)).1,
   (initializeDefaultData_idempotent_seed (fun _ => 500) (fun _ => "2 sq km")
      (fun _ => "+911000000000") 42 sampleStore (by decide) (by decide)).2.1⟩

/-- Witness for C10: the ward-2 resident and the admin get the identical
ward-1 detail, including the problems of ward 1. -/
theorem wardDetail_witness :
    getWardDetail residentTwo sampleStore 1
      = getWardDetail adminActor sampleStore 1 ∧
    getWardDetail residentTwo sampleStore 1
      = .ok { ward := activeWardOne,
              recentProblems := (sortByCreatedAtDesc (sampleStore.problems.filter
                (fun p => decide (p.wardNumber = 1)))).take 5,
              stats := groupByStatus (sampleStore.problems.filter
                (fun p => decide (p.wardNumber = 1))) } :=
  ⟨(wardDetail_ignores_actor sampleStore 1).1 residentTwo adminActor,
   (wardDetail_ignores_actor sampleStore 1).2 activeWardOne (by decide)
     residentTwo⟩
